import Mathlib

/-!
Verification of the Ballers coaching-session / calendar synchronization core.

The Python code (controllers/calendar_controller.py, controllers/calendar_utils.py,
controllers/session_controller.py, common/utils.py, config.py) is embedded shallowly:

* A Python `datetime.datetime` is a wall-clock reading in microseconds together
  with an optional fixed UTC offset (`none` models a naive datetime).
* The MD5 digest used as a change-detection fingerprint is modelled by its
  pre-image fields: MD5 is a fixed function, so equal field tuples give equal
  digests, and (absent engineered collisions) distinct pre-images give distinct
  digests; the spec itself calls the hash a change detector, not a security
  primitive.
* SQLAlchemy sessions are modelled by explicit lists of rows and an explicit
  committed/pending split where a claim needs it; raising is modelled with
  `Except`.
* `config.TIMEZONE` (the application's configured local zone) is referenced by
  the sources but not itself under src/; following the spec it is modelled as a
  fixed UTC offset `lo`, in seconds, passed as a parameter.
-/

namespace Ballers

/-- Models a Python `datetime.datetime`: `wall` is the wall-clock reading in
microseconds, `tz` the attached fixed UTC offset in seconds (`none` models a
naive datetime, i.e. `tzinfo is None`). -/
structure DTime where
  wall : Int
  tz : Option Int
deriving DecidableEq, Repr

/-- Models `d.replace(microsecond=0)`: truncate the wall clock to whole
seconds (the `microsecond` field of a Python datetime is always in
`[0, 10^6)`, which `Int.emod` reproduces). -/
def DTime.stripMicro (d : DTime) : DTime :=
  { wall := d.wall - d.wall % 1000000, tz := d.tz }

/-- Models `d.astimezone(dt.timezone.utc)`.  An aware datetime is converted by
subtracting its offset; a naive datetime would be interpreted by Python in the
system zone, modelled by the parameter `sysOff` (seconds). -/
def DTime.astimezoneUTC (sysOff : Int) (d : DTime) : DTime :=
  { wall := d.wall - (d.tz.getD sysOff) * 1000000, tz := some 0 }

/-- Models `common/utils.py: normalize_datetime_for_hash` on a datetime
argument, with `lo` the UTC offset (seconds) of the configured `TIMEZONE`:
a naive input is stamped with `TIMEZONE`, the value is converted to UTC, and
`tzinfo` and microseconds are dropped.  The Python function returns
`utc_naive.isoformat()`; since `isoformat` renders a naive datetime
injectively and `datetime.fromisoformat` parses that rendering back to exactly
the same naive value, the returned string is modelled by the naive `DTime`
itself.  (Applying the Python function to such a string value first parses it
back: `fromisoformat(s.replace("Z", "+00:00"))`.) -/
def normalize_datetime_for_hash (lo : Int) (d : DTime) : DTime :=
  let d1 : DTime := if d.tz = none then { wall := d.wall, tz := some lo } else d
  let u := DTime.astimezoneUTC 0 d1
  { wall := u.wall - u.wall % 1000000, tz := none }

/-- Models `models.SessionStatus` (referenced throughout the controllers; the
spec's status enumeration {scheduled, completed, canceled}). -/
inductive SessionStatus where
  | scheduled
  | completed
  | canceled
deriving DecidableEq, Repr

/-- Models `SessionStatus.value`, the string stored in the database and used
as the key into `CALENDAR_COLORS`. -/
def SessionStatus.value : SessionStatus → String
  | .scheduled => "scheduled"
  | .completed => "completed"
  | .canceled => "canceled"

/-- Models `config.CALENDAR_COLORS` (src/config.py): status key mapped to its
google colorId and hex color. -/
def CALENDAR_COLORS : List (String × String × String) :=
  [("scheduled", "9", "#1E88E5"),
   ("completed", "2", "#4CAF50"),
   ("canceled", "11", "#F44336")]

/-- Models the derived map `COLOR = {k: v["google"] for k, v in CALENDAR_COLORS.items()}`
used by both controllers: lookup of the google colorId for a status string. -/
def COLOR (k : String) : Option String :=
  (CALENDAR_COLORS.find? (fun e => e.1 == k)).map (fun e => e.2.1)

/-- Models `controllers/calendar_utils.py: status_from_color`:
reds {"11","6"} map to canceled, greens {"2","10"} to completed, everything
else to scheduled. -/
def status_from_color (color : String) : SessionStatus :=
  if color = "11" ∨ color = "6" then .canceled
  else if color = "2" ∨ color = "10" then .completed
  else .scheduled

/-- Models `controllers/calendar_controller.py: _status_from_color` (the
reconciliation engine's copy): reds {"11","6","5"} map to canceled, greens
{"2","10","12","13"} to completed, everything else to scheduled. -/
def status_from_color_ctrl (color : String) : SessionStatus :=
  if color = "11" ∨ color = "6" ∨ color = "5" then .canceled
  else if color = "2" ∨ color = "10" ∨ color = "12" ∨ color = "13" then .completed
  else .scheduled

/-- Pre-image of the MD5 digest built by
`controllers/calendar_utils.py: calculate_session_hash`: the six `"|"`-joined
components (participant ids, normalized instants, status string,
notes-or-empty).  The digest itself is modelled by this tuple, see the module
docstring. -/
structure Fingerprint where
  coach : Int
  player : Int
  start : DTime
  stop : DTime
  status : String
  notes : String
deriving DecidableEq, Repr

/-- Models a row of the sessions table as the controllers use it (the ORM
model module is not under src/; the fields are the ones read and written by
the embedded code, matching the spec's data model).  `sync_hash` holds the
modelled fingerprint, `none` for SQL NULL. -/
structure SessionRec where
  id : Int
  coach_id : Int
  player_id : Int
  start_time : DTime
  end_time : DTime
  status : SessionStatus
  notes : Option String
  calendar_event_id : Option String
  source : String
  sync_hash : Option Fingerprint
  is_dirty : Bool
  last_sync_at : Option DTime
  updated_at : Option DTime
  version : Int
deriving DecidableEq, Repr

/-- Models `controllers/calendar_utils.py: calculate_session_hash` with `lo`
the configured local-zone offset used by date normalization. -/
def calculate_session_hash (lo : Int) (s : SessionRec) : Fingerprint :=
  { coach := s.coach_id
    player := s.player_id
    start := normalize_datetime_for_hash lo s.start_time
    stop := normalize_datetime_for_hash lo s.end_time
    status := s.status.value
    notes := s.notes.getD "" }

/-- Models `controllers/calendar_utils.py: update_session_tracking`: recompute
the fingerprint from the current fields, stamp `updated_at`/`last_sync_at`
with now, clear the dirty flag and bump the version
(`(session.version or 0) + 1` agrees with `version + 1` on every integer). -/
def update_session_tracking (lo : Int) (now : DTime) (s : SessionRec) : SessionRec :=
  { s with sync_hash := some (calculate_session_hash lo s)
           updated_at := some now
           last_sync_at := some now
           is_dirty := false
           version := s.version + 1 }

/-- Models `controllers/calendar_utils.py: session_has_real_changes`: dirty,
or no stored fingerprint, or stored fingerprint differs from the freshly
computed one. -/
def session_has_real_changes (lo : Int) (s : SessionRec) : Bool :=
  if s.is_dirty then true
  else if s.sync_hash = none then true
  else decide (s.sync_hash ≠ some (calculate_session_hash lo s))

/-- The invariant of claim C1 (spec §3): a non-null stored fingerprint with
`is_dirty = false` equals the fingerprint of the row's current field values. -/
def hashInvariant (lo : Int) (s : SessionRec) : Prop :=
  s.sync_hash ≠ none → s.is_dirty = false →
    s.sync_hash = some (calculate_session_hash lo s)

instance (lo : Int) (s : SessionRec) : Decidable (hashInvariant lo s) := by
  unfold hashInvariant; infer_instance

/-- Models the snapshot of a Google Calendar event that the reconciliation
loop reads: id, title, description, parsed start/end instants, colorId
(`none` for an absent key) and the private extended-properties bag. -/
structure EventRec where
  id : String
  summary : Option String
  description : Option String
  start : DTime
  stop : DTime
  colorId : Option String
  session_id_prop : Option String
  coach_id_prop : Option String
  player_id_prop : Option String
deriving DecidableEq, Repr

/-- Models the MATCHED branch of `sync_calendar_to_db`
(controllers/calendar_controller.py lines 404-441): calendar wins.  The status
is compared against `_status_from_color(ev.get("colorId", "9"))`; start and
end are compared after conversion to UTC and truncation to whole seconds but
assigned from the raw parsed event instants; notes are compared through the
or-empty-string reading and assigned as the description or NULL when empty.
Returns the updated row, the changed flag, and the updated counter
(incremented exactly when a field was written and the row re-added). -/
def calendarWinsStep (sysOff : Int) (ses : SessionRec) (ev : EventRec) (updated : Nat) :
    SessionRec × Bool × Nat :=
  let status := status_from_color_ctrl (ev.colorId.getD "9")
  let (ses, changed) :=
    if ses.status ≠ status then ({ ses with status := status }, true) else (ses, false)
  let db_start := (DTime.astimezoneUTC sysOff ses.start_time).stripMicro
  let new_start := (DTime.astimezoneUTC sysOff ev.start).stripMicro
  let (ses, changed) :=
    if db_start ≠ new_start then ({ ses with start_time := ev.start }, true) else (ses, changed)
  let db_end := (DTime.astimezoneUTC sysOff ses.end_time).stripMicro
  let new_end := (DTime.astimezoneUTC sysOff ev.stop).stripMicro
  let (ses, changed) :=
    if db_end ≠ new_end then ({ ses with end_time := ev.stop }, true) else (ses, changed)
  let new_notes := ev.description.getD ""
  let (ses, changed) :=
    if ses.notes.getD "" ≠ new_notes then
      ({ ses with notes := if new_notes ≠ "" then some new_notes else none }, true)
    else (ses, changed)
  (ses, changed, if changed then updated + 1 else updated)

/-- Folds a digit list into the denoted natural number
(helper for the decimal-string parser below). -/
def digitsToNat (l : List Char) : Nat :=
  l.foldl (fun n c => n * 10 + (c.toNat - 48)) 0

/-- Models CPython `int(s)` on a decimal string: optional surrounding
whitespace, one optional sign, then one or more ASCII digits.  (Underscore
separators and non-ASCII digits, which never occur in the metadata bags under
study, are not modelled.)  `none` models the `ValueError` branch. -/
def pyStrToInt (s : String) : Option Int :=
  let cs := ((s.toList.dropWhile Char.isWhitespace).reverse.dropWhile Char.isWhitespace).reverse
  match cs with
  | '-' :: rest =>
      if rest ≠ [] ∧ rest.all Char.isDigit then some (-(digitsToNat rest : Int)) else none
  | '+' :: rest =>
      if rest ≠ [] ∧ rest.all Char.isDigit then some ((digitsToNat rest : Int)) else none
  | rest =>
      if rest ≠ [] ∧ rest.all Char.isDigit then some ((digitsToNat rest : Int)) else none

/-- Models `controllers/calendar_controller.py: _safe_int` applied to a value
read from the metadata bag: `int(value)` with `TypeError` (value `None`) and
`ValueError` both mapped to `None`. -/
def safe_int (v : Option String) : Option Int :=
  v.bind pyStrToInt

/-- Models lines 80-86 of `controllers/calendar_controller.py: _guess_ids`,
the metadata strategy: read `coach_id`/`player_id` from the event's private
extended properties and return them when
`cid and pid and cid < 100 and pid < 100` holds (Python truthiness: a parse
failure or a zero value is falsy).  `none` models falling through to the
title-parsing strategies. -/
def guess_ids_metadata (coachProp playerProp : Option String) : Option (Int × Int) :=
  match safe_int coachProp, safe_int playerProp with
  | some cid, some pid =>
      if cid ≠ 0 ∧ pid ≠ 0 ∧ cid < 100 ∧ pid < 100 then some (cid, pid) else none
  | _, _ => none

/-- Models the UNMATCHED branch of `sync_calendar_to_db` (lines 443-479):
`guess` is the pair returned by `_guess_ids(ev)`; `coaches`/`players` are the
ids present in the database.  The event is skipped (`none`: no row created or
modified) when either id is `None` or either participant is missing; otherwise
a calendar-provenance row bound to the event is created (`id` is assigned by
the database at flush and modelled as 0). -/
def processUnmatchedEvent (guess : Option Int × Option Int)
    (coaches players : List Int) (ev : EventRec) : Option SessionRec :=
  match guess with
  | (some c, some p) =>
      if c ∈ coaches then
        if p ∈ players then
          some { id := 0, coach_id := c, player_id := p,
                 start_time := ev.start, end_time := ev.stop,
                 status := status_from_color_ctrl (ev.colorId.getD "9"),
                 notes := ev.description, calendar_event_id := some ev.id,
                 source := "calendar", sync_hash := none, is_dirty := false,
                 last_sync_at := none, updated_at := none, version := 1 }
        else none
      else none
  | _ => none

/-- Python dict assignment `m[k] = v`: overwrite the binding when the key is
present, append it otherwise. -/
def pyDictInsert (m : List (String × SessionRec)) (k : String) (v : SessionRec) :
    List (String × SessionRec) :=
  if m.any (fun p => p.1 == k) then
    m.map (fun p => if p.1 == k then (k, v) else p)
  else m ++ [(k, v)]

/-- Python dict comprehension `{kv[0]: kv[1] for kv in l}`. -/
def pyDictOf (l : List (String × SessionRec)) : List (String × SessionRec) :=
  l.foldl (fun m kv => pyDictInsert m kv.1 kv.2) []

/-- Models the `sessions_in_window` query of `sync_calendar_to_db` (lines
496-500): rows whose external link is set and whose start time lies in
`[now - 30 days, now + 60 days]`, both bounds inclusive.  `now` and the row
start instants are compared as microsecond readings of the same clock. -/
def windowSessions (now : Int) (rows : List SessionRec) : List SessionRec :=
  let winStart := now - 30 * 86400 * 1000000
  let winEnd := now + 60 * 86400 * 1000000
  rows.filter (fun s =>
    s.calendar_event_id.isSome &&
    decide (winStart ≤ s.start_time.wall) && decide (s.start_time.wall ≤ winEnd))

/-- Models the deletion-detection phase of `sync_calendar_to_db` (lines
496-523): build `window_sessions = {s.calendar_event_id: s ...}` over the
window query, take the keys that did not occur among the event ids returned by
this poll, and delete the corresponding rows. -/
def deletionPhase (now : Int) (rows : List SessionRec) (seen : List String) :
    List SessionRec :=
  let ws := pyDictOf ((windowSessions now rows).map
    (fun t => (t.calendar_event_id.getD "", t)))
  (ws.filter (fun p => ¬ seen.contains p.1)).map (fun p => p.2)

/-- Outcome of one Google Calendar API call, as the error handling of the
controllers distinguishes them: success, `HttpError` with a status code, or
any other exception. -/
inductive CalOutcome where
  | ok
  | httpError (code : Nat)
  | exc
deriving DecidableEq, Repr

/-- Models `SessionController._delete_session_from_calendar`
(controllers/session_controller.py lines 392-415): `True` with no link or on
success; `HttpError` 404 ("already gone") also yields `True`; any other
failure is caught, logged and reported to the caller as `False`. -/
def delete_session_from_calendar (link : Option String) (svc : CalOutcome) : Bool :=
  match link with
  | none => true
  | some _ =>
    match svc with
    | .ok => true
    | .httpError code => if code = 404 then true else false
    | .exc => false

/-- Models the module-level `delete_session` of
controllers/calendar_controller.py (lines 190-206): `False` with no link;
`True` on success; `HttpError` 404 is ignored and yields `False` without
raising; any other failure propagates (`Except.error`). -/
def delete_session_cc (link : Option String) (svc : CalOutcome) : Except CalOutcome Bool :=
  match link with
  | none => .ok false
  | some _ =>
    match svc with
    | .ok => .ok true
    | .httpError code => if code ≠ 404 then .error (.httpError code) else .ok false
    | .exc => .error .exc

/-- Outcome of the calendar insert attempted by
`SessionController._push_session_to_calendar`; every exception of the push
helper is caught there and reported as `False`, so `failure` covers them all. -/
inductive CalInsert where
  | success (eventId : String)
  | failure
deriving DecidableEq, Repr

/-- Arguments of `SessionController.create_session`. -/
structure CreateArgs where
  coach_id : Int
  player_id : Int
  start_time : DTime
  end_time : DTime
  notes : Option String
  status : SessionStatus
deriving DecidableEq, Repr

/-- Models `SessionController.create_session`
(controllers/session_controller.py lines 95-169) together with its helper
`_push_session_to_calendar` (lines 306-350).  `coach_ok`/`player_ok` are the
outcomes of the ValidationController existence checks (that module is not
under src/), with their error messages as parameters.  The first component of
the result is the list of rows committed by the call (the transaction is
rolled back on a failed push, so nothing persists); the rest is the returned
`(success, message, session)` triple.  On a successful push the row is
committed with the stored event id and tracking refreshed (tracking is
refreshed once inside the push helper and once more before the final
commit). -/
def create_session (coach_ok player_ok : Bool) (coach_err player_err : String)
    (a : CreateArgs) (sync_to_calendar : Bool) (cal : CalInsert) (lo : Int) (now : DTime) :
    List SessionRec × Bool × String × Option SessionRec :=
  if ¬ coach_ok then ([], false, coach_err, none)
  else if ¬ player_ok then ([], false, player_err, none)
  else
    let new_session : SessionRec :=
      { id := 0, coach_id := a.coach_id, player_id := a.player_id,
        start_time := a.start_time, end_time := a.end_time,
        status := a.status, notes := a.notes, calendar_event_id := none,
        source := "app", sync_hash := none, is_dirty := false,
        last_sync_at := none, updated_at := none, version := 1 }
    if sync_to_calendar then
      match cal with
      | .failure => ([], false, "Error creating session in Google Calendar", none)
      | .success eid =>
          let s1 := { new_session with calendar_event_id := some eid }
          let s2 := update_session_tracking lo now s1
          let s3 := update_session_tracking lo now s2
          ([s3], true, "Session created successfully", some s3)
    else
      let s1 := update_session_tracking lo now new_session
      ([s1], true, "Session created successfully", some s1)

/-- Counts reported by one reconciliation run (the SyncRun record of the
spec's data model, §3). -/
structure SyncStats where
  imported : Nat
  updated : Nat
  deleted : Nat
deriving DecidableEq, Repr

/-- Answer given to a run request. -/
inductive RunResponse where
  | started
  | alreadyRunning
deriving DecidableEq, Repr

/-- Modelled from the spec: the Sync Coordinator state.  The coordinator
module (`controllers/sync.py` / `controllers/sync_coordinator.py`, imported by
src/main.py and src/pages/settings.py) is not under src/; spec §5 and §9
describe a process-wide state object holding a single in-flight-run flag and
the cached last-run statistics. -/
structure CoordState where
  running : Bool
  lastResult : Option SyncStats
deriving DecidableEq, Repr

/-- Modelled from the spec (§5, Mutual exclusion): a run request — periodic or
manual — arriving while a run is active is rejected immediately, without
queueing or blocking, and reported as "already running"; otherwise the run
starts and the flag is taken. -/
def requestRun (st : CoordState) : CoordState × RunResponse :=
  if st.running then (st, .alreadyRunning)
  else ({ st with running := true }, .started)

/-- Modelled from the spec (§5, §7): the active run completes, records its
statistics and releases the in-flight flag. -/
def finishRun (st : CoordState) (res : SyncStats) : CoordState :=
  { st with running := false, lastResult := some res }

/-- Concrete session used by the C1 failing input, before its fingerprint is
stored: one linked app-created row, clean and with times at whole seconds. -/
def c1Base : SessionRec :=
  { id := 7, coach_id := 1, player_id := 2,
    start_time := { wall := 0, tz := some 0 },
    end_time := { wall := 3600000000, tz := some 0 },
    status := .scheduled, notes := none, calendar_event_id := some "ev1",
    source := "app", sync_hash := none, is_dirty := false,
    last_sync_at := none, updated_at := none, version := 1 }

/-- The C1 failing input: `c1Base` with its fingerprint stored and the dirty
flag clear, so the C1 invariant holds before the sync. -/
def c1Ses : SessionRec :=
  { c1Base with sync_hash := some (calculate_session_hash 0 c1Base) }

/-- The C1 failing input's calendar event: same participants, times and color
as `c1Ses`, but the description was edited in the calendar. -/
def c1Ev : EventRec :=
  { id := "ev1", summary := none, description := some "edited in calendar",
    start := { wall := 0, tz := some 0 },
    stop := { wall := 3600000000, tz := some 0 },
    colorId := some "9", session_id_prop := none,
    coach_id_prop := none, player_id_prop := none }

/-- Boundary instant for the C6 witness: with `exNow` as "now", the window
start `now - 30 days` is exactly 0. -/
def exNow : Int := 30 * 86400 * 1000000

/-- C6 witness row on the window boundary: start time exactly at
`now - 30 days`, linked, and its event id not among the polled events. -/
def rowA : SessionRec :=
  { id := 1, coach_id := 1, player_id := 1,
    start_time := { wall := 0, tz := none },
    end_time := { wall := 1, tz := none },
    status := .scheduled, notes := none, calendar_event_id := some "a",
    source := "calendar", sync_hash := none, is_dirty := false,
    last_sync_at := none, updated_at := none, version := 1 }

/-- C6 witness row one microsecond before the window: identical to `rowA` but
starting at `now - 30 days - 1µs`, so the deletion check must skip it. -/
def rowB : SessionRec :=
  { id := 2, coach_id := 1, player_id := 1,
    start_time := { wall := -1, tz := none },
    end_time := { wall := 1, tz := none },
    status := .scheduled, notes := none, calendar_event_id := some "b",
    source := "calendar", sync_hash := none, is_dirty := false,
    last_sync_at := none, updated_at := none, version := 1 }

/-- Event used by the C7 witness. -/
def exEv : EventRec :=
  { id := "evX", summary := some "Session: A × B", description := none,
    start := { wall := 0, tz := some 0 }, stop := { wall := 1, tz := some 0 },
    colorId := none, session_id_prop := none,
    coach_id_prop := none, player_id_prop := none }

/-- Row created from `exEv` for coach 1 and player 2, for the C7 witness. -/
def exRow : SessionRec :=
  { id := 0, coach_id := 1, player_id := 2,
    start_time := exEv.start, end_time := exEv.stop,
    status := status_from_color_ctrl "9", notes := none,
    calendar_event_id := some "evX", source := "calendar", sync_hash := none,
    is_dirty := false, last_sync_at := none, updated_at := none, version := 1 }

/-- C9: for every status in {scheduled, completed, canceled}, mapping the
status through its canonical CALENDAR_COLORS google color and back through
`status_from_color` — and likewise through the reconciliation engine's copy
`_status_from_color` — reproduces the original status
(scheduled → "9" → scheduled, completed → "2" → completed,
canceled → "11" → canceled). -/
theorem status_color_round_trip :
    ∀ st : SessionStatus,
      (COLOR st.value).map status_from_color = some st ∧
      (COLOR st.value).map status_from_color_ctrl = some st := by
  intro st
  cases st <;> exact ⟨rfl, rfl⟩

/-- C2: mutual exclusion of reconciliation runs (spec-modelled coordinator:
the module is not under src/).  A run request arriving while a run is active —
whatever the cached statistics — is rejected as "already running" and leaves
the state unchanged; in the periodic-then-manual scenario the periodic run is
started, the manual request is rejected without touching the state, and after
the periodic run finishes exactly its results are the recorded ones. -/
theorem sync_mutual_exclusion :
    (∀ r : Option SyncStats,
        requestRun { running := true, lastResult := r } =
          ({ running := true, lastResult := r }, RunResponse.alreadyRunning)) ∧
    (∀ (r : Option SyncStats) (pres : SyncStats),
        (requestRun { running := false, lastResult := r }).2 = RunResponse.started ∧
        requestRun (requestRun { running := false, lastResult := r }).1 =
          ((requestRun { running := false, lastResult := r }).1, RunResponse.alreadyRunning) ∧
        (finishRun (requestRun (requestRun { running := false, lastResult := r }).1).1
            pres).lastResult = some pres) := by
  exact ⟨fun r => rfl, fun r pres => ⟨rfl, rfl, rfl⟩⟩

/-- C3 counterexample: metadata values "-1"/"-1" both parse as the integer -1,
which is not a positive integer, yet the metadata strategy returns the pair
(-1, -1) instead of falling through to the next strategy: the guard
`cid and pid and cid < 100 and pid < 100` only rules out zero and large
values, not negative ones. -/
theorem guess_ids_metadata_accepts_negative :
    guess_ids_metadata (some "-1") (some "-1") = some (-1, -1) ∧
      ¬ (0 < (-1 : Int)) := by
  exact ⟨by decide, by decide⟩

/-- C3 amended: the metadata strategy returns `(c, p)` iff both metadata
values parse as integers, both are nonzero (Python truthiness) and both are
strictly below 100; for all other metadata values (missing, non-numeric, zero,
or ≥ 100) it falls through.  Negative values are accepted, not only positive
ones. -/
theorem guess_ids_metadata_characterization (cs ps : Option String) (c p : Int) :
    guess_ids_metadata cs ps = some (c, p) ↔
      (safe_int cs = some c ∧ safe_int ps = some p ∧
        c ≠ 0 ∧ p ≠ 0 ∧ c < 100 ∧ p < 100) := by
  unfold guess_ids_metadata
  cases hc : safe_int cs with
  | none => cases hp : safe_int ps <;> simp
  | some cid =>
    cases hp : safe_int ps with
    | none => simp
    | some pid =>
      dsimp only
      split_ifs with hcond
      · simp only [Option.some.injEq, Prod.mk.injEq]
        constructor
        · rintro ⟨rfl, rfl⟩
          exact ⟨rfl, rfl, hcond.1, hcond.2.1, hcond.2.2.1, hcond.2.2.2⟩
        · rintro ⟨rfl, rfl, -⟩
          exact ⟨rfl, rfl⟩
      · simp only [Option.some.injEq]
        constructor
        · intro h; cases h
        · rintro ⟨rfl, rfl, h3, h4, h5, h6⟩
          exact absurd ⟨h3, h4, h5, h6⟩ hcond

/-- C3 witness for the amended characterization: metadata values "7"/"12"
are returned as the pair (7, 12). -/
theorem guess_ids_metadata_characterization_witness :
    guess_ids_metadata (some "7") (some "12") = some (7, 12) :=
  (guess_ids_metadata_characterization (some "7") (some "12") 7 12).mpr
    ⟨by decide, by decide, by decide, by decide, by decide, by decide⟩

/-- C4 counterexample: with a configured local zone one hour east of UTC
(offset 3600 s) and the naive instant at wall clock 0, re-normalizing the
output of `normalize_datetime_for_hash` does not reproduce it: the normalized
string carries no timezone marker, so the second application re-interprets it
as a local reading and shifts it by another hour towards UTC. -/
theorem normalize_not_idempotent :
    normalize_datetime_for_hash 3600
        (normalize_datetime_for_hash 3600 { wall := 0, tz := none }) ≠
      normalize_datetime_for_hash 3600 { wall := 0, tz := none } := by
  decide

/-- Shape of a normalized instant: no timezone and no sub-second part. -/
theorem normalize_result_shape (lo : Int) (d : DTime) :
    (normalize_datetime_for_hash lo d).tz = none ∧
    (normalize_datetime_for_hash lo d).wall % 1000000 = 0 := by
  have strip : ∀ x : Int, (x - x % 1000000) % 1000000 = 0 := by
    intro x
    have hx : x - x % 1000000 = 1000000 * (x / 1000000) := by
      rw [Int.emod_def]; ring
    rw [hx, Int.mul_emod_right]
  cases d with
  | mk w tz =>
    cases tz with
    | none => exact ⟨rfl, strip (w - lo * 1000000)⟩
    | some o => exact ⟨rfl, strip (w - o * 1000000)⟩

/-- C4 amended: normalization is idempotent exactly when the configured local
zone's UTC offset is zero; in general the second application shifts the
already-normalized instant a further `lo` seconds towards UTC, because the
normalized value is naive and gets re-interpreted as a local reading.  In
particular `normalize (normalize t) = normalize t` for every `t`, naive or
aware, when `lo = 0`. -/
theorem normalize_second_application (lo : Int) (d : DTime) :
    normalize_datetime_for_hash lo (normalize_datetime_for_hash lo d) =
      { wall := (normalize_datetime_for_hash lo d).wall - lo * 1000000, tz := none } ∧
    (lo = 0 → normalize_datetime_for_hash lo (normalize_datetime_for_hash lo d) =
      normalize_datetime_for_hash lo d) := by
  obtain ⟨htz, hmod⟩ := normalize_result_shape lo d
  cases hne : normalize_datetime_for_hash lo d with
  | mk w1 t1 =>
    rw [hne] at htz hmod
    subst htz
    simp only at hmod
    have hz : (w1 - lo * 1000000) % 1000000 = 0 := by
      rw [Int.sub_emod, hmod, Int.mul_emod_left]
      rfl
    have hkey : normalize_datetime_for_hash lo { wall := w1, tz := none } =
        { wall := w1 - lo * 1000000, tz := none } := by
      show ({ wall := w1 - lo * 1000000 - (w1 - lo * 1000000) % 1000000,
              tz := none } : DTime) = { wall := w1 - lo * 1000000, tz := none }
      rw [hz, sub_zero]
    refine ⟨by rw [hkey], fun h => ?_⟩
    subst h
    rw [hkey]
    simp only [zero_mul, sub_zero]

/-- C4 witness for the amended claim: at offset 0 the normalization is
idempotent on a concrete naive instant with microseconds. -/
theorem normalize_second_application_witness :
    normalize_datetime_for_hash 0
        (normalize_datetime_for_hash 0 { wall := 1234567, tz := none }) =
      normalize_datetime_for_hash 0 { wall := 1234567, tz := none } :=
  (normalize_second_application 0 { wall := 1234567, tz := none }).2 rfl

/-- C8: for a session with a non-null external link, both delete helpers treat
the service's "not found" (HttpError 404, event already gone) as satisfied
rather than as an error: the controller helper reports success (`True`, like a
real deletion) and the module-level function returns normally instead of
raising; any other service failure is surfaced to the caller — `False` from
the controller helper, a propagated exception from the module function. -/
theorem delete_not_found_is_success (l : String) :
    delete_session_from_calendar (some l) (.httpError 404) = true ∧
    delete_session_from_calendar (some l) .ok = true ∧
    (∀ code : Nat, code ≠ 404 →
      delete_session_from_calendar (some l) (.httpError code) = false) ∧
    delete_session_from_calendar (some l) .exc = false ∧
    delete_session_cc (some l) (.httpError 404) = .ok false ∧
    (∀ code : Nat, code ≠ 404 →
      delete_session_cc (some l) (.httpError code) = .error (.httpError code)) ∧
    delete_session_cc (some l) .exc = .error .exc := by
  refine ⟨rfl, rfl, fun code h => ?_, rfl, rfl, fun code h => ?_, rfl⟩
  · simp [delete_session_from_calendar, h]
  · simp [delete_session_cc, h]

/-- C8 witness: a concrete non-404 failure (HTTP 500) on a linked session is
reported as a failure by the controller helper and raised by the module
function. -/
theorem delete_not_found_witness :
    delete_session_from_calendar (some "ev") (.httpError 500) = false ∧
    delete_session_cc (some "ev") (.httpError 500) = .error (.httpError 500) :=
  ⟨(delete_not_found_is_success "ev").2.2.1 500 (by decide),
   (delete_not_found_is_success "ev").2.2.2.2.2.1 500 (by decide)⟩

/-- C7: reconciliation never invents a Session row.  A row is produced for an
unmatched event iff identity resolution returned `(some c, some p)` and both
the coach and the player exist in the database; any produced row carries the
resolved pair, calendar provenance and the bound event id.  In every other
case — resolution `(None, None)` or a missing participant — the event is
skipped and nothing is produced. -/
theorem no_invented_rows (g : Option Int × Option Int)
    (coaches players : List Int) (ev : EventRec) :
    ((processUnmatchedEvent g coaches players ev).isSome = true ↔
       ∃ c p, g = (some c, some p) ∧ c ∈ coaches ∧ p ∈ players) ∧
    (∀ s : SessionRec, processUnmatchedEvent g coaches players ev = some s →
       ∃ c p, g = (some c, some p) ∧ c ∈ coaches ∧ p ∈ players ∧
         s.coach_id = c ∧ s.player_id = p ∧ s.source = "calendar" ∧
         s.calendar_event_id = some ev.id) := by
  obtain ⟨g1, g2⟩ := g
  cases g1 with
  | none => simp [processUnmatchedEvent]
  | some c0 =>
    cases g2 with
    | none => simp [processUnmatchedEvent]
    | some p0 =>
      by_cases hc : c0 ∈ coaches
      · by_cases hp : p0 ∈ players
        · constructor
          · exact ⟨fun _ => ⟨c0, p0, rfl, hc, hp⟩,
              fun _ => by simp [processUnmatchedEvent, hc, hp]⟩
          · intro s hs
            simp only [processUnmatchedEvent, if_pos hc, if_pos hp,
              Option.some.injEq] at hs
            exact ⟨c0, p0, rfl, hc, hp, by rw [← hs], by rw [← hs],
              by rw [← hs], by rw [← hs]⟩
        · have hnone : processUnmatchedEvent (some c0, some p0) coaches players ev = none := by
            simp only [processUnmatchedEvent, if_pos hc, if_neg hp]
          constructor
          · rw [hnone]
            simp only [Option.isSome_none, Bool.false_eq_true, false_iff]
            rintro ⟨c, p, hg, hcc, hpp⟩
            injection hg with h1 h2
            injection h2 with h2
            exact hp (h2 ▸ hpp)
          · intro s hs
            rw [hnone] at hs
            cases hs
      · have hnone : processUnmatchedEvent (some c0, some p0) coaches players ev = none := by
          simp only [processUnmatchedEvent, if_neg hc]
        constructor
        · rw [hnone]
          simp only [Option.isSome_none, Bool.false_eq_true, false_iff]
          rintro ⟨c, p, hg, hcc, hpp⟩
          injection hg with h1 h2
          injection h1 with h1
          exact hc (h1 ▸ hcc)
        · intro s hs
          rw [hnone] at hs
          cases hs

/-- C7 witness: for the concrete event `exEv`, resolution result (1, 2) and a
database containing coach 1 and player 2, the created row is exactly `exRow`,
which carries the resolved pair, calendar provenance and the event id. -/
theorem no_invented_rows_witness :
    ∃ c p, ((some (1 : Int), some (2 : Int)) : Option Int × Option Int) = (some c, some p) ∧
      c ∈ [(1 : Int)] ∧ p ∈ [(2 : Int)] ∧
      exRow.coach_id = c ∧ exRow.player_id = p ∧ exRow.source = "calendar" ∧
      exRow.calendar_event_id = some exEv.id :=
  (no_invented_rows (some 1, some 2) [1] [2] exEv).2 exRow rfl

/-- C10: atomicity of session creation with calendar sync.  With the
existence validations passing and `sync_to_calendar = True`: when the
calendar insert fails the transaction is rolled back — no row is committed —
and the call returns `(False, "Error creating session in Google Calendar",
None)`; when the insert succeeds exactly one row is committed, and it carries
the stored external link, a clear dirty flag, a fingerprint matching its
committed field values, and the refreshed last-sync stamp. -/
theorem create_session_atomicity (ce pe : String) (a : CreateArgs) (lo : Int)
    (now : DTime) (eid : String) :
    create_session true true ce pe a true .failure lo now =
      ([], false, "Error creating session in Google Calendar", none) ∧
    (∃ s : SessionRec,
      create_session true true ce pe a true (.success eid) lo now =
        ([s], true, "Session created successfully", some s) ∧
      s.calendar_event_id = some eid ∧ s.is_dirty = false ∧
      s.sync_hash = some (calculate_session_hash lo s) ∧
      s.last_sync_at = some now ∧ s.source = "app") := by
  exact ⟨rfl, ⟨_, rfl, rfl, rfl, rfl, rfl, rfl⟩⟩

/-- C5: the calendar-wins rule for a matched event.  The row ends with the
status derived from the event's color; start and end are overwritten with the
event's instants exactly when they differ at UTC whole-second precision, and
kept otherwise; the notes are overwritten with the event's description (NULL
when empty) exactly when they differ under the or-empty reading; the changed
flag is the disjunction of the four field differences; and the updated counter
grows by exactly one when some field differed and is unchanged otherwise (in
which case the row is exactly the input row, i.e. not written). -/
theorem calendar_wins_fields (sysOff : Int) (ses : SessionRec) (ev : EventRec) (u : Nat) :
    (calendarWinsStep sysOff ses ev u).1 =
      { ses with
          status := status_from_color_ctrl (ev.colorId.getD "9"),
          start_time :=
            if (DTime.astimezoneUTC sysOff ses.start_time).stripMicro ≠
                (DTime.astimezoneUTC sysOff ev.start).stripMicro
            then ev.start else ses.start_time,
          end_time :=
            if (DTime.astimezoneUTC sysOff ses.end_time).stripMicro ≠
                (DTime.astimezoneUTC sysOff ev.stop).stripMicro
            then ev.stop else ses.end_time,
          notes :=
            if ses.notes.getD "" ≠ ev.description.getD "" then
              (if ev.description.getD "" ≠ "" then some (ev.description.getD "") else none)
            else ses.notes } ∧
    (calendarWinsStep sysOff ses ev u).2.1 =
      (decide (ses.status ≠ status_from_color_ctrl (ev.colorId.getD "9")) ||
       decide ((DTime.astimezoneUTC sysOff ses.start_time).stripMicro ≠
         (DTime.astimezoneUTC sysOff ev.start).stripMicro) ||
       decide ((DTime.astimezoneUTC sysOff ses.end_time).stripMicro ≠
         (DTime.astimezoneUTC sysOff ev.stop).stripMicro) ||
       decide (ses.notes.getD "" ≠ ev.description.getD "")) ∧
    (calendarWinsStep sysOff ses ev u).2.2 =
      (if (calendarWinsStep sysOff ses ev u).2.1 then u + 1 else u) := by
  unfold calendarWinsStep
  by_cases h1 : ses.status ≠ status_from_color_ctrl (ev.colorId.getD "9") <;>
  by_cases h2 : (DTime.astimezoneUTC sysOff ses.start_time).stripMicro ≠
      (DTime.astimezoneUTC sysOff ev.start).stripMicro <;>
  by_cases h3 : (DTime.astimezoneUTC sysOff ses.end_time).stripMicro ≠
      (DTime.astimezoneUTC sysOff ev.stop).stripMicro <;>
  by_cases h4 : ses.notes.getD "" ≠ ev.description.getD "" <;>
    simp_all
  rw [← h1]

/-- C1 failing input: `c1Ses` satisfies the fingerprint invariant (its stored
fingerprint matches its fields, dirty is clear), the matched event `c1Ev`
differs from it only in the description, and the calendar-wins update applied
by `sync_calendar_to_db` writes the row (changed = true, counter bumped) while
leaving the stored fingerprint and the clear dirty flag untouched — so the
committed row violates the invariant: its stored fingerprint no longer matches
its current field values although `is_dirty` is false. -/
theorem calendar_wins_breaks_hash_invariant :
    hashInvariant 0 c1Ses ∧
    (calendarWinsStep 0 c1Ses c1Ev 0).2.1 = true ∧
    (calendarWinsStep 0 c1Ses c1Ev 0).2.2 = 1 ∧
    (calendarWinsStep 0 c1Ses c1Ev 0).1.is_dirty = false ∧
    (calendarWinsStep 0 c1Ses c1Ev 0).1.sync_hash = c1Ses.sync_hash ∧
    ¬ hashInvariant 0 (calendarWinsStep 0 c1Ses c1Ev 0).1 := by
  refine ⟨by decide, by decide, by decide, by decide, by decide, by decide⟩

/-- Folding Python dict insertion over pairwise-distinct keys appends. -/
theorem pyDictFold_eq_append (l : List (String × SessionRec)) :
    ∀ acc : List (String × SessionRec),
      ((acc ++ l).map Prod.fst).Nodup →
      l.foldl (fun m kv => pyDictInsert m kv.1 kv.2) acc = acc ++ l := by
  induction l with
  | nil => intro acc _; simp
  | cons kv tl ih =>
    intro acc h
    have hk : kv.1 ∉ acc.map Prod.fst := by
      intro hmem
      rw [List.map_append, List.nodup_append] at h
      exact h.2.2 hmem (by simp)
    have hcond : ¬ (acc.any fun p => p.1 == kv.1) = true := by
      intro hany
      obtain ⟨q, hq, hqe⟩ := List.any_eq_true.mp hany
      exact hk (List.mem_map.mpr ⟨q, hq, (beq_iff_eq.mp hqe)⟩)
    have hins : pyDictInsert acc kv.1 kv.2 = acc ++ [kv] := by
      unfold pyDictInsert
      rw [if_neg hcond]
    rw [List.foldl_cons, hins, ih (acc ++ [kv]) (by simpa using h)]
    simp

/-- A Python dict built from an association list with pairwise-distinct keys
is that list. -/
theorem pyDictOf_eq_self (l : List (String × SessionRec))
    (h : (l.map Prod.fst).Nodup) : pyDictOf l = l := by
  have := pyDictFold_eq_append l [] (by simpa using h)
  simpa [pyDictOf] using this

/-- C6: after all events have been processed, the deletion check removes
exactly the rows whose external link is set, whose start instant lies in
`[now - 30 days, now + 60 days]` with both bounds inclusive, and whose event
id was not among the event ids returned by this poll (rows are assumed to
carry pairwise-distinct event ids inside the window, matching the uniqueness
of calendar event ids).  In particular a row starting exactly at
`now - 30 days` is subject to the check and a row one microsecond earlier is
not, and rows outside the window are never deleted by it. -/
theorem deletion_exactly (now : Int) (rows : List SessionRec) (seen : List String)
    (s : SessionRec)
    (hnd : ((windowSessions now rows).map (fun t => t.calendar_event_id.getD "")).Nodup) :
    s ∈ deletionPhase now rows seen ↔
      s ∈ rows ∧ s.calendar_event_id.isSome = true ∧
      seen.contains (s.calendar_event_id.getD "") = false ∧
      now - 30 * 86400 * 1000000 ≤ s.start_time.wall ∧
      s.start_time.wall ≤ now + 60 * 86400 * 1000000 := by
  unfold deletionPhase
  rw [pyDictOf_eq_self _ (by simpa [List.map_map, Function.comp] using hnd)]
  have hw : ∀ t : SessionRec, t ∈ windowSessions now rows ↔
      t ∈ rows ∧ t.calendar_event_id.isSome = true ∧
      now - 30 * 86400 * 1000000 ≤ t.start_time.wall ∧
      t.start_time.wall ≤ now + 60 * 86400 * 1000000 := by
    intro t
    unfold windowSessions
    rw [List.mem_filter]
    simp [and_assoc]
  constructor
  · intro hmem
    obtain ⟨q, hq, hqs⟩ := List.mem_map.mp hmem
    obtain ⟨hq1, hq2⟩ := List.mem_filter.mp hq
    obtain ⟨t, ht, hts⟩ := List.mem_map.mp hq1
    subst hqs
    rw [← hts] at hq2 ⊢
    obtain ⟨ht1, ht2, ht3, ht4⟩ := (hw t).mp ht
    refine ⟨ht1, ht2, ?_, ht3, ht4⟩
    simpa using hq2
  · rintro ⟨h1, h2, h3, h4, h5⟩
    refine List.mem_map.mpr ⟨(s.calendar_event_id.getD "", s), ?_, rfl⟩
    refine List.mem_filter.mpr ⟨List.mem_map.mpr ⟨s, (hw s).mpr ⟨h1, h2, h4, h5⟩, rfl⟩, ?_⟩
    simpa using h3

/-- C6 witness for the window boundary: with "now" chosen so that the window
start is wall clock 0, the linked, unseen row starting exactly at
`now - 30 days` is deleted while the one starting one microsecond earlier is
not. -/
theorem deletion_boundary_witness :
    rowA ∈ deletionPhase exNow [rowA, rowB] [] ∧
    rowB ∉ deletionPhase exNow [rowA, rowB] [] := by
  constructor
  · exact (deletion_exactly exNow [rowA, rowB] [] rowA (by decide)).mpr (by decide)
  · intro hmem
    have h := (deletion_exactly exNow [rowA, rowB] [] rowB (by decide)).mp hmem
    revert h
    decide

end Ballers
